import Mathlib

/-!
# MUCK collaboration core — shallow embedding

A shallow embedding of the MUCK real-time collaborative editor backend
(`src/server/websocket.ts`, `src/server/db.ts`, and the offline-recovery
manager), faithful to the TypeScript source, together with theorems that
settle the frozen claims about its specification.

Modelling conventions:
* Yjs is opaque in the source; a CRDT document is modelled as the finite
  set of CRDT operations it has merged (`Finset ℕ`), and an encoded
  update (`YUpdate`) carries a validity flag (`Y.applyUpdate` throws on
  empty or unparseable bytes) plus the set of operations it encodes.
  Merging is set union, which is commutative and idempotent like Yjs.
* The drizzle query builder's `eq`/`gt` calls return condition *objects*;
  `db.ts` combines them with JavaScript `&&`, which on two truthy objects
  evaluates to its right operand.  This is modelled explicitly by `jsAnd`.
* JavaScript `Map`s become association lists with `Map.set` replace-in-place
  semantics; the database becomes an explicit record of row lists with an
  `available` flag (`getDb()` returns `null` when no `DATABASE_URL`).
* `Date.now()` becomes the `now` field of the server state.
-/

namespace MUCK

/-- An encoded Yjs update: `valid = false` models bytes that
`Y.applyUpdate` rejects (empty or unparseable); `ops` is the set of CRDT
operations the update carries. -/
structure YUpdate where
  valid : Bool
  ops : Finset ℕ
  deriving DecidableEq

/-- A Yjs document, modelled as the set of CRDT operations merged into it. -/
abbrev YDoc := Finset ℕ

/-- Model of `Y.applyUpdate(doc, bytes)`: merge an encoded delta; `none` models the
thrown exception on invalid bytes. -/
def applyYUpdate (doc : YDoc) (u : YUpdate) : Option YDoc :=
  if u.valid then some (doc ∪ u.ops) else none

/-- Model of `Y.encodeStateAsUpdate(doc)`: the full state as a delta against the
empty document. -/
def encodeStateAsUpdate (doc : YDoc) : YUpdate :=
  { valid := true, ops := doc }

/-! ## Database rows (drizzle schema, as consumed by `db.ts`) -/

structure UserRow where
  id : ℕ
  openId : String
  name : String
  deriving DecidableEq

structure DocumentRow where
  id : ℕ
  ownerId : ℕ
  snapshotState : Option YUpdate
  snapshotVersion : Option ℕ
  deriving DecidableEq

structure PermissionRow where
  documentId : ℕ
  userId : ℕ
  role : String
  deriving DecidableEq

structure OperationRow where
  documentId : ℕ
  clientId : String
  userId : ℕ
  updateData : YUpdate
  lamportTime : ℕ
  vectorClock : List (String × ℕ)
  version : ℕ
  deriving DecidableEq

structure SessionRow where
  documentId : ℕ
  userId : ℕ
  clientId : String
  userColor : String
  deriving DecidableEq

structure OfflineRow where
  clientId : String
  documentId : ℕ
  updateData : YUpdate
  sequenceNumber : ℕ
  deriving DecidableEq

/-- The relational store visible to `db.ts`.  `available = false` models
`getDb()` returning `null` (no `DATABASE_URL` / failed connection). -/
structure Db where
  available : Bool
  users : List UserRow
  documents : List DocumentRow
  permissions : List PermissionRow
  operations : List OperationRow
  sessions : List SessionRow
  offline : List OfflineRow
  deriving DecidableEq

/-! ## Drizzle condition objects and JavaScript `&&`

`eq(col, v)` and `gt(col, v)` return SQL condition objects.  In
`db.ts` several `.where(...)` arguments are built as `eq(...) && eq(...)`:
JavaScript's short-circuit `&&` on two truthy objects returns the right
operand, so only the right condition reaches the query builder. -/

/-- A drizzle condition over `documentPermissions` rows. -/
inductive PermCond where
  | eqDocumentId (v : ℕ)
  | eqUserId (v : ℕ)
  deriving DecidableEq

def PermCond.holds : PermCond → PermissionRow → Bool
  | .eqDocumentId v, r => r.documentId == v
  | .eqUserId v, r => r.userId == v

/-- A drizzle condition over `operations` rows. -/
inductive OpCond where
  | eqDocumentId (v : ℕ)
  | gtVersion (v : ℕ)
  deriving DecidableEq

def OpCond.holds : OpCond → OperationRow → Bool
  | .eqDocumentId v, r => r.documentId == v
  | .gtVersion v, r => decide (v < r.version)

/-- A drizzle condition over `offlineQueue` rows. -/
inductive OffCond where
  | eqClientId (v : String)
  | eqDocumentId (v : ℕ)
  deriving DecidableEq

def OffCond.holds : OffCond → OfflineRow → Bool
  | .eqClientId v, r => r.clientId == v
  | .eqDocumentId v, r => r.documentId == v

/-- JavaScript `&&` applied to two drizzle condition objects.  Both
operands are truthy objects, so the expression evaluates to the right
operand; the left condition is discarded. -/
def jsAnd {α : Type} (_left right : α) : α := right

/-! ## Sorting for `.orderBy(...)` -/

/-- Insert into a list sorted by `key`, keeping earlier elements first on
ties (stable). -/
def insertByKey {α : Type} (key : α → ℕ) (x : α) : List α → List α
  | [] => [x]
  | y :: ys => if key y ≤ key x then y :: insertByKey key x ys else x :: y :: ys

/-- Stable insertion sort by a natural-number key, modelling SQL
`ORDER BY key ASC`. -/
def sortByKey {α : Type} (key : α → ℕ) : List α → List α
  | [] => []
  | x :: xs => insertByKey key x (sortByKey key xs)

theorem length_insertByKey {α : Type} (key : α → ℕ) (x : α) (l : List α) :
    (insertByKey key x l).length = l.length + 1 := by
  induction l with
  | nil => rfl
  | cons y ys ih =>
      simp only [insertByKey]
      split <;> simp [ih]

theorem length_sortByKey {α : Type} (key : α → ℕ) (l : List α) :
    (sortByKey key l).length = l.length := by
  induction l with
  | nil => rfl
  | cons x xs ih => simp [sortByKey, length_insertByKey, ih]

/-! ## `db.ts` data-access functions -/

/-- Model of `getUserByOpenId` (db.ts): `select … where eq(users.openId, openId) limit 1`. -/
def getUserByOpenId (db : Db) (openId : String) : Option UserRow :=
  if db.available then
    (db.users.filter (fun r => r.openId == openId)).head?
  else none

/-- Model of `getDocument` (db.ts): `select … where eq(documents.id, documentId) limit 1`. -/
def getDocument (db : Db) (documentId : ℕ) : Option DocumentRow :=
  if db.available then
    (db.documents.filter (fun r => r.id == documentId)).head?
  else none

/-- Model of `checkDocumentAccess` (db.ts): the `.where` argument is
`eq(documentPermissions.documentId, documentId) && eq(documentPermissions.userId, userId)`,
a JavaScript `&&` of two condition objects. -/
def checkDocumentAccess (db : Db) (documentId userId : ℕ) : Option PermissionRow :=
  if db.available then
    (db.permissions.filter
      ((jsAnd (PermCond.eqDocumentId documentId) (PermCond.eqUserId userId)).holds)).head?
  else none

/-- Model of `addOperation` (db.ts): inserts an `operations` row; throws (`none`)
when the database is not available. -/
def addOperation (db : Db) (row : OperationRow) : Option Db :=
  if db.available then some { db with operations := db.operations ++ [row] }
  else none

/-- Model of `getOperationsSince` (db.ts): the `.where` argument is
`eq(operations.documentId, documentId) && gt(operations.version, version)`,
a JavaScript `&&` of two condition objects; ordered by `version`. -/
def getOperationsSince (db : Db) (documentId version : ℕ) : List OperationRow :=
  if db.available then
    sortByKey (fun r => r.version)
      (db.operations.filter
        ((jsAnd (OpCond.eqDocumentId documentId) (OpCond.gtVersion version)).holds))
  else []

/-- Model of `createSession` (db.ts): inserts a `sessions` row; throws (`none`)
when the database is not available. -/
def createSession (db : Db) (documentId userId : ℕ) (clientId userColor : String) :
    Option Db :=
  if db.available then
    some { db with sessions :=
      db.sessions ++ [{ documentId, userId, clientId, userColor }] }
  else none

/-- Model of `deleteSession` (db.ts): deletes `sessions` rows by `clientId`;
silently no-ops when the database is not available. -/
def deleteSession (db : Db) (clientId : String) : Db :=
  if db.available then
    { db with sessions := db.sessions.filter (fun r => !(r.clientId == clientId)) }
  else db

/-- Model of `getOfflineQueue` (db.ts): the `.where` argument is
`eq(offlineQueue.clientId, clientId) && eq(offlineQueue.documentId, documentId)`,
a JavaScript `&&` of two condition objects; ordered by `sequenceNumber`. -/
def getOfflineQueue (db : Db) (clientId : String) (documentId : ℕ) : List OfflineRow :=
  if db.available then
    sortByKey (fun r => r.sequenceNumber)
      (db.offline.filter
        ((jsAnd (OffCond.eqClientId clientId) (OffCond.eqDocumentId documentId)).holds))
  else []

/-- Model of `clearOfflineQueue` (db.ts): deletes rows matching the `.where`
argument `eq(offlineQueue.clientId, clientId) && eq(offlineQueue.documentId, documentId)`
(again a JavaScript `&&`); silently no-ops when the database is not available. -/
def clearOfflineQueue (db : Db) (clientId : String) (documentId : ℕ) : Db :=
  if db.available then
    { db with offline := db.offline.filter (fun r =>
        !((jsAnd (OffCond.eqClientId clientId) (OffCond.eqDocumentId documentId)).holds r)) }
  else db

/-! ## JavaScript `Map` as an association list -/

/-- Model of `Map.get(k)`. -/
def mapGet {κ α : Type} [BEq κ] (m : List (κ × α)) (k : κ) : Option α :=
  (m.find? (fun p => p.1 == k)).map (·.2)

/-- Model of `Map.set(k, v)`: replaces in place when the key exists, otherwise
appends (JavaScript `Map` preserves insertion order). -/
def mapSet {κ α : Type} [BEq κ] (m : List (κ × α)) (k : κ) (v : α) : List (κ × α) :=
  match m with
  | [] => [(k, v)]
  | (k0, v0) :: rest => if k0 == k then (k, v) :: rest else (k0, v0) :: mapSet rest k v

/-- Model of `Map.delete(k)`. -/
def mapDelete {κ α : Type} [BEq κ] (m : List (κ × α)) (k : κ) : List (κ × α) :=
  m.filter (fun p => !(p.1 == k))

/-- How many entries of the association list carry key `k`. -/
def keyCount {κ α : Type} [BEq κ] (m : List (κ × α)) (k : κ) : ℕ :=
  (m.filter (fun p => p.1 == k)).length

/-! ## WebSocket server state (`websocket.ts`) -/

/-- Model of `UserSession` (websocket.ts). -/
structure UserSession where
  userId : ℕ
  clientId : String
  documentId : ℕ
  color : String
  lastHeartbeat : ℕ
  deriving DecidableEq

/-- One buffered, not-yet-checkpointed operation
(`room.operationBuffer` entries). -/
structure BufferedOp where
  update : YUpdate
  clientId : String
  timestamp : ℕ
  deriving DecidableEq

/-- The `lastSnapshot` marker of a room. -/
structure SnapshotMarker where
  version : ℕ
  timestamp : ℕ
  deriving DecidableEq

/-- Model of `DocumentRoom` (websocket.ts). -/
structure DocumentRoom where
  doc : YDoc
  users : List (String × UserSession)
  lamportTime : ℕ
  vectorClocks : List (String × ℕ)
  operationBuffer : List BufferedOp
  lastSnapshot : SnapshotMarker
  deriving DecidableEq

/-- The fixed 8-color palette (websocket.ts `COLORS`). -/
def COLORS : List String :=
  ["#FF6B6B", "#4ECDC4", "#45B7D1", "#FFA07A", "#98D8C8", "#F7DC6F", "#BB8FCE", "#85C1E2"]

/-- Model of `getNextColor`: reads `COLORS[colorIndex % COLORS.length]`. -/
def getNextColor (colorIndex : ℕ) : String :=
  COLORS.getD (colorIndex % COLORS.length) ""

/-- The decoded middle segment of a JWT:
`{openId: string, exp: unix_seconds}`. -/
structure JwtPayload where
  openId : String
  exp : ℕ
  deriving DecidableEq

/-- A bearer token after `token.split(".")`: one entry per dot-separated
segment.  A segment is modelled by what `Buffer.from(seg, "base64")`
followed by `JSON.parse` yields for it — `some payload` when it decodes
to a JSON payload object, `none` when decoding throws. -/
abbrev Jwt := List (Option JwtPayload)

/-- Model of `parseJWT` (websocket.ts): requires exactly three dot-separated parts
and decodes the middle one; any decode failure yields `null`.  Note the
source checks neither the signature nor `exp`. -/
def parseJWT (token : Jwt) : Option JwtPayload :=
  match token with
  | [_, payload, _] => payload
  | _ => none

/-- Where a socket.io emit goes: `socket.emit` reaches the sender,
`socket.to(room).emit` reaches every socket in the room except the
sender, `io.to(room).emit` reaches every socket in the room including
the sender. -/
inductive EmitTarget where
  | toSender
  | toChannelExceptSender (documentId : ℕ)
  | toChannel (documentId : ℕ)
  deriving DecidableEq

/-- The concrete recipient set of an emit, given the clientIds joined to
the document's channel and the sender's clientId. -/
def recipients (channel : List String) (sender : String) : EmitTarget → List String
  | .toSender => [sender]
  | .toChannelExceptSender _ => channel.filter (fun m => !(m == sender))
  | .toChannel _ => channel

/-- A message emitted by the server. -/
inductive ServerEvent where
  | errorEvt (target : EmitTarget) (message : String) (code : String)
  | roomJoined (target : EmitTarget) (documentId : ℕ) (clientId : String)
      (users : List (String × ℕ × String)) (docState : YUpdate) (lamportTime : ℕ)
  | userJoined (target : EmitTarget) (userId : ℕ) (clientId : String)
      (name : String) (color : String)
  | userLeft (target : EmitTarget) (clientId : String) (userId : ℕ)
  | updateEvt (target : EmitTarget) (update : YUpdate) (clientId : String)
      (lamportTime : ℕ) (timestamp : ℕ)
  deriving DecidableEq

/-- The process-wide server state: the database, the room registry
(`rooms` map), socket.io channel membership per document, the global
`colorIndex`, and the current clock (`Date.now()`). -/
structure ServerState where
  db : Db
  rooms : List (ℕ × DocumentRoom)
  channels : List (ℕ × List String)
  colorIndex : ℕ
  now : ℕ
  deriving DecidableEq

/-- Result of running one socket event handler: the new server state,
the events emitted (in order), the connection's `currentSession`
afterwards, and whether the server closed the connection. -/
structure HandlerResult where
  state : ServerState
  events : List ServerEvent
  session : Option UserSession
  closed : Bool
  deriving DecidableEq

/-- clientIds currently joined to the `doc:<documentId>` channel. -/
def channelMembers (st : ServerState) (documentId : ℕ) : List String :=
  (mapGet st.channels documentId).getD []

/-! ## Room registry and persistence helpers (`websocket.ts`) -/

/-- Model of `getOrCreateRoom` (websocket.ts): registry hit returns the live room;
otherwise consult `getDocument` (returning `null` when the document does
not exist), build a fresh `Y.Doc`, load the snapshot if present (a load
failure is caught and only logged), register and return the room.  Note
the source never replays persisted `operations` rows here. -/
def getOrCreateRoom (st : ServerState) (documentId : ℕ) :
    Option DocumentRoom × ServerState :=
  match mapGet st.rooms documentId with
  | some room => (some room, st)
  | none =>
    match getDocument st.db documentId with
    | none => (none, st)
    | some docRow =>
      let ydoc : YDoc :=
        match docRow.snapshotState with
        | some snap => (applyYUpdate ∅ snap).getD ∅
        | none => ∅
      let room : DocumentRoom :=
        { doc := ydoc
          users := []
          lamportTime := 0
          vectorClocks := []
          operationBuffer := []
          lastSnapshot := { version := docRow.snapshotVersion.getD 0, timestamp := st.now } }
      (some room, { st with rooms := mapSet st.rooms documentId room })

/-- Model of `persistSnapshot` (websocket.ts): encodes the full state and logs —
the source contains no database write (its own comment reads
`Note: This would need a proper update function in db.ts`) — then clears
`operationBuffer` and bumps `lastSnapshot.version`.  The database is
returned unchanged. -/
def persistSnapshot (db : Db) (room : DocumentRoom) (now : ℕ) : Db × DocumentRoom :=
  (db,
   { room with
      operationBuffer := []
      lastSnapshot := { version := room.lastSnapshot.version + 1, timestamp := now } })

/-- Model of `broadcastUpdate` (websocket.ts): emits the update via
`io.to("doc:" ++ documentId)` — i.e. to every socket in the channel,
the origin included — then appends to `operationBuffer` and triggers
`persistSnapshot` when the buffer holds more than 100 entries. -/
def broadcastUpdate (st : ServerState) (documentId : ℕ) (update : YUpdate)
    (clientId : String) (lamportTime : ℕ) : ServerState × List ServerEvent :=
  match mapGet st.rooms documentId with
  | none => (st, [])
  | some room =>
    let ev := ServerEvent.updateEvt (.toChannel documentId) update clientId lamportTime st.now
    let room1 := { room with
      operationBuffer := room.operationBuffer ++ [⟨update, clientId, st.now⟩] }
    if 100 < room1.operationBuffer.length then
      let (db1, room2) := persistSnapshot st.db room1 st.now
      ({ st with db := db1, rooms := mapSet st.rooms documentId room2 }, [ev])
    else
      ({ st with rooms := mapSet st.rooms documentId room1 }, [ev])

/-! ## Socket event handlers (`websocket.ts`) -/

structure JoinRoomMessage where
  documentId : ℕ
  clientId : String
  token : Jwt

structure UpdateMessage where
  update : YUpdate
  clientId : String

/-- The `join_room` handler (websocket.ts).  `prev` is the connection's
`currentSession` before the message; error branches leave it unchanged.
No branch closes the connection. -/
def joinRoom (st : ServerState) (prev : Option UserSession) (msg : JoinRoomMessage) :
    HandlerResult :=
  match parseJWT msg.token with
  | none => ⟨st, [.errorEvt .toSender "Invalid token" "AUTH_FAILED"], prev, false⟩
  | some payload =>
    match getUserByOpenId st.db payload.openId with
    | none => ⟨st, [.errorEvt .toSender "User not found" "USER_NOT_FOUND"], prev, false⟩
    | some user =>
      match getOrCreateRoom st msg.documentId with
      | (none, st1) =>
          ⟨st1, [.errorEvt .toSender "Document not found" "NOT_FOUND"], prev, false⟩
      | (some room, st1) =>
        let denied : Bool :=
          match getDocument st1.db msg.documentId with
          | some doc =>
              if doc.ownerId ≠ user.id then
                (checkDocumentAccess st1.db msg.documentId user.id).isNone
              else false
          | none => false
        if denied then
          ⟨st1, [.errorEvt .toSender "Access denied" "ACCESS_DENIED"], prev, false⟩
        else
          let color := getNextColor st1.colorIndex
          let st2 := { st1 with colorIndex := st1.colorIndex + 1 }
          let session : UserSession :=
            { userId := user.id, clientId := msg.clientId, documentId := msg.documentId
              color := color, lastHeartbeat := st2.now }
          let room1 := { room with users := mapSet room.users msg.clientId session }
          let st3 := { st2 with rooms := mapSet st2.rooms msg.documentId room1 }
          match createSession st3.db msg.documentId user.id msg.clientId color with
          | none =>
              ⟨st3, [.errorEvt .toSender "Internal server error" "SERVER_ERROR"],
               some session, false⟩
          | some db1 =>
            let st4 := { st3 with
              db := db1
              channels := mapSet st3.channels msg.documentId
                ((channelMembers st3 msg.documentId) ++ [msg.clientId]) }
            let userList := room1.users.map (fun p => (p.2.clientId, p.2.userId, p.2.color))
            ⟨st4,
             [.roomJoined .toSender msg.documentId msg.clientId userList
                (encodeStateAsUpdate room1.doc) room1.lamportTime,
              .userJoined (.toChannelExceptSender msg.documentId) user.id msg.clientId
                user.name color],
             some session, false⟩

/-- The `update` handler (websocket.ts): apply to the CRDT, bump the
lamport clock and the sender's vector-clock entry, persist via
`addOperation` with `version = lastSnapshot.version + operationBuffer.length`
(the buffer before the append done later by `broadcastUpdate`), then
broadcast.  A throw anywhere is caught and answered with `UPDATE_FAILED`
to the sender; mutations already made to the room persist. -/
def updateHandler (st : ServerState) (currentSession : Option UserSession)
    (msg : UpdateMessage) : HandlerResult :=
  match currentSession with
  | none => ⟨st, [.errorEvt .toSender "Not in room" "NOT_IN_ROOM"], none, false⟩
  | some cs =>
    match mapGet st.rooms cs.documentId with
    | none => ⟨st, [], some cs, false⟩
    | some room =>
      match applyYUpdate room.doc msg.update with
      | none =>
          ⟨st, [.errorEvt .toSender "Failed to process update" "UPDATE_FAILED"],
           some cs, false⟩
      | some doc1 =>
        let room1 := { room with
          doc := doc1
          lamportTime := room.lamportTime + 1
          vectorClocks := mapSet room.vectorClocks msg.clientId
            ((mapGet room.vectorClocks msg.clientId).getD 0 + 1) }
        let st1 := { st with rooms := mapSet st.rooms cs.documentId room1 }
        let opRow : OperationRow :=
          { documentId := cs.documentId, clientId := msg.clientId, userId := cs.userId
            updateData := msg.update, lamportTime := room1.lamportTime
            vectorClock := room1.vectorClocks
            version := room1.lastSnapshot.version + room1.operationBuffer.length }
        match addOperation st1.db opRow with
        | none =>
            ⟨st1, [.errorEvt .toSender "Failed to process update" "UPDATE_FAILED"],
             some cs, false⟩
        | some db1 =>
          let st2 := { st1 with db := db1 }
          let broadcast := broadcastUpdate st2 cs.documentId msg.update msg.clientId
            room1.lamportTime
          ⟨broadcast.1, broadcast.2, some cs, false⟩

/-- The `disconnect` handler (websocket.ts): remove the session from the
room's members, emit `user_left` to the peers, checkpoint and drop the
room when it became empty, and delete the database session row.
socket.io removes the closing socket from its channels. -/
def disconnectHandler (st : ServerState) (currentSession : Option UserSession) :
    ServerState × List ServerEvent :=
  match currentSession with
  | none => (st, [])
  | some cs =>
    let channels1 := mapSet st.channels cs.documentId
      ((channelMembers st cs.documentId).erase cs.clientId)
    match mapGet st.rooms cs.documentId with
    | none =>
        ({ st with channels := channels1, db := deleteSession st.db cs.clientId }, [])
    | some room =>
      let room1 := { room with users := mapDelete room.users cs.clientId }
      let evs := [ServerEvent.userLeft (.toChannelExceptSender cs.documentId)
        cs.clientId cs.userId]
      if room1.users.length == 0 then
        let (db1, _room2) := persistSnapshot st.db room1 st.now
        ({ st with
            db := deleteSession db1 cs.clientId
            rooms := mapDelete st.rooms cs.documentId
            channels := channels1 }, evs)
      else
        ({ st with
            db := deleteSession st.db cs.clientId
            rooms := mapSet st.rooms cs.documentId room1
            channels := channels1 }, evs)

/-! ## Offline recovery (`OfflineRecoveryManager`) -/

/-- Result of `recoverOfflineOperations`. -/
structure RecoveryResult where
  db : Db
  doc : YDoc
  recovered : ℕ
  conflicts : ℕ
  deriving DecidableEq

/-- One iteration of the recovery loop: try to apply the queued update;
success bumps `recovered`, a caught apply failure bumps `conflicts`. -/
def applyQueued (acc : YDoc × ℕ × ℕ) (row : OfflineRow) : YDoc × ℕ × ℕ :=
  match applyYUpdate acc.1 row.updateData with
  | some d => (d, acc.2.1 + 1, acc.2.2)
  | none => (acc.1, acc.2.1, acc.2.2 + 1)

/-- Model of `OfflineRecoveryManager.recoverOfflineOperations`: fetch the queue,
return `{0, 0}` early when it is empty, otherwise apply each entry
(counting recoveries and conflicts) and unconditionally clear the queue —
conflicting entries included. -/
def recoverOfflineOperations (db : Db) (clientId : String) (documentId : ℕ)
    (ydoc : YDoc) : RecoveryResult :=
  let queuedOps := getOfflineQueue db clientId documentId
  if queuedOps.length == 0 then
    ⟨db, ydoc, 0, 0⟩
  else
    let r := queuedOps.foldl applyQueued (ydoc, 0, 0)
    ⟨clearOfflineQueue db clientId documentId, r.1, r.2.1, r.2.2⟩

/-! ## Spec-side read path (for the refinement comparison of claim C3) -/

/-- Modelled from the spec, for comparison with `getOrCreateRoom`: the
§4.6 read path — "load `snapshotState` (if present) into a fresh CRDT,
then apply `Operation` rows with `version > snapshotVersion` in ascending
version order". -/
def specReconstruct (db : Db) (documentId : ℕ) : Option YDoc :=
  match getDocument db documentId with
  | none => none
  | some docRow =>
    let base : YDoc :=
      match docRow.snapshotState with
      | some snap => (applyYUpdate ∅ snap).getD ∅
      | none => ∅
    let v := docRow.snapshotVersion.getD 0
    let rows := sortByKey (fun r => r.version)
      (db.operations.filter (fun r => r.documentId == documentId && decide (v < r.version)))
    some (rows.foldl (fun d r => (applyYUpdate d r.updateData).getD d) base)

/-! ## Helper lemmas -/

theorem mapGet_mapSet {κ α : Type} [BEq κ] [LawfulBEq κ]
    (m : List (κ × α)) (k : κ) (v : α) : mapGet (mapSet m k v) k = some v := by
  induction m with
  | nil => simp [mapGet, mapSet]
  | cons p rest ih =>
      obtain ⟨k0, v0⟩ := p
      by_cases h : k0 == k
      · simp [mapSet, h, mapGet]
      · simp only [mapSet, h, if_neg, Bool.false_eq_true, not_false_eq_true, ite_false]
        simpa [mapGet, h] using ih

theorem keyCount_mapSet {κ α : Type} [BEq κ] [LawfulBEq κ]
    (m : List (κ × α)) (k : κ) (v : α) :
    keyCount (mapSet m k v) k = max 1 (keyCount m k) := by
  induction m with
  | nil => simp [keyCount, mapSet]
  | cons p rest ih =>
      obtain ⟨k0, v0⟩ := p
      by_cases h : k0 == k
      · simp [mapSet, h, keyCount, List.filter]
      · simp only [mapSet, h, Bool.false_eq_true, not_false_eq_true, ite_false]
        simpa [keyCount, List.filter, h] using ih

/-- Each loop iteration of offline recovery increments exactly one of the
two counters. -/
theorem applyQueued_counts (l : List OfflineRow) (acc : YDoc × ℕ × ℕ) :
    (l.foldl applyQueued acc).2.1 + (l.foldl applyQueued acc).2.2 =
      acc.2.1 + acc.2.2 + l.length := by
  induction l generalizing acc with
  | nil => simp
  | cons row rest ih =>
      have hstep : (applyQueued acc row).2.1 + (applyQueued acc row).2.2 =
          acc.2.1 + acc.2.2 + 1 := by
        unfold applyQueued
        cases applyYUpdate acc.1 row.updateData <;> simp <;> omega
      simp only [List.foldl_cons, List.length_cons]
      rw [ih (applyQueued acc row), hstep]
      omega

/-! ## Event discriminators -/

def ServerEvent.isUserLeftEvt : ServerEvent → Bool
  | .userLeft _ _ _ => true
  | _ => false

def ServerEvent.isUserJoinedEvt : ServerEvent → Bool
  | .userJoined _ _ _ _ _ => true
  | _ => false

def ServerEvent.isUpdateBroadcast : ServerEvent → Bool
  | .updateEvt _ _ _ _ _ => true
  | _ => false

def ServerEvent.isRoomJoinedEvt : ServerEvent → Bool
  | .roomJoined _ _ _ _ _ _ => true
  | _ => false

def ServerEvent.hasErrorCode (code : String) : ServerEvent → Bool
  | .errorEvt _ _ c => c == code
  | _ => false

/-! ## Concrete fixtures -/

def alice : UserRow := ⟨5, "u5", "Alice"⟩

def owen : UserRow := ⟨9, "u9", "Owen"⟩

/-- A store where document 1 belongs to user 9 and the only access grant
pairs user 5 with document **2**. -/
def dbGrantOtherDoc : Db :=
  { available := true, users := [alice, owen], documents := [⟨1, 9, none, none⟩]
    permissions := [⟨2, 5, "editor"⟩], operations := [], sessions := [], offline := [] }

def stGrantOtherDoc : ServerState := ⟨dbGrantOtherDoc, [], [], 0, 1000⟩

/-- A store where document 1 belongs to user 5 (the owner path). -/
def dbOwnerAlice : Db :=
  { available := true, users := [alice], documents := [⟨1, 5, none, none⟩]
    permissions := [], operations := [], sessions := [], offline := [] }

def stOwnerAlice : ServerState := ⟨dbOwnerAlice, [], [], 0, 1000⟩

/-- A store where document 1 belongs to user 9 and user 5 has no grant at
all. -/
def dbNoGrant : Db :=
  { available := true, users := [alice, owen], documents := [⟨1, 9, none, none⟩]
    permissions := [], operations := [], sessions := [], offline := [] }

def stNoGrant : ServerState := ⟨dbNoGrant, [], [], 0, 1000⟩

/-- A well-formed three-part token for `openId = "u5"` expiring far in the
future. -/
def tokenAlice : Jwt := [none, some ⟨"u5", 99999⟩, none]

/-- A well-formed three-part token for `openId = "u5"` that expired at
unix second 3 — long before `now = 1000`. -/
def expiredToken : Jwt := [none, some ⟨"u5", 3⟩, none]

/-- A token with a single segment (no dots): `parseJWT` rejects it. -/
def malformedToken : Jwt := [none]

/-! ## Claim C1 -/

/-- **C1.** The claim states that `checkDocumentAccess(documentId, userId)`
returns a row only when a permission row matches *both* the documentId and
the userId, and that otherwise a non-owner join is refused with
`AccessDenied`.  The source combines the two `eq` conditions with
JavaScript `&&`, which evaluates to its right operand, so only the userId
is filtered: with the sole grant pairing user 5 with document **2**,
`checkDocumentAccess` for document **1** still returns that row, and user
5's `join_room` for document 1 succeeds (`room_joined` emitted, user
admitted to the member map) instead of replying `AccessDenied`. -/
theorem C1_checkDocumentAccess_ignores_documentId :
    checkDocumentAccess dbGrantOtherDoc 1 5 = some ⟨2, 5, "editor"⟩
    ∧ (joinRoom stGrantOtherDoc none ⟨1, "c1", tokenAlice⟩).events.filter
        (ServerEvent.hasErrorCode "ACCESS_DENIED") = []
    ∧ (joinRoom stGrantOtherDoc none ⟨1, "c1", tokenAlice⟩).events.filter
        ServerEvent.isRoomJoinedEvt ≠ []
    ∧ ((mapGet (joinRoom stGrantOtherDoc none ⟨1, "c1", tokenAlice⟩).state.rooms 1).map
        (fun r => (mapGet r.users "c1").isSome)) = some true := by
  decide

/-! ## Claim C2 -/

/-- **C2.** The claim states that a missing, malformed, or *expired*
bearer token is answered with `AuthFailed` and that the connection is
closed after emission, with no session created.  The source's `parseJWT`
only splits the token and decodes the middle segment: it checks neither
the signature nor `exp`, and no error branch of `join_room` ever closes
the socket.  With a token that expired at unix second 3 (`now = 1000`),
the join succeeds: no `AUTH_FAILED` is emitted, `room_joined` is sent, a
database session row is created, and the connection stays open.  Even for
a genuinely malformed token the error is emitted but the connection is
not closed. -/
theorem C2_expired_token_is_accepted :
    parseJWT expiredToken = some ⟨"u5", 3⟩
    ∧ (3 : ℕ) < stOwnerAlice.now
    ∧ (joinRoom stOwnerAlice none ⟨1, "c1", expiredToken⟩).events.filter
        (ServerEvent.hasErrorCode "AUTH_FAILED") = []
    ∧ (joinRoom stOwnerAlice none ⟨1, "c1", expiredToken⟩).events.filter
        ServerEvent.isRoomJoinedEvt ≠ []
    ∧ (joinRoom stOwnerAlice none ⟨1, "c1", expiredToken⟩).closed = false
    ∧ (joinRoom stOwnerAlice none ⟨1, "c1", expiredToken⟩).state.db.sessions
        = [⟨1, 5, "c1", "#FF6B6B"⟩]
    ∧ (joinRoom stOwnerAlice none ⟨1, "c1", malformedToken⟩).events
        = [.errorEvt .toSender "Invalid token" "AUTH_FAILED"]
    ∧ (joinRoom stOwnerAlice none ⟨1, "c1", malformedToken⟩).closed = false := by
  decide

/-! ## Claim C3 -/

/-- A store holding document 1 with a snapshot at version 1 carrying CRDT
operation 10, plus a persisted `operations` row at version 2 carrying
CRDT operation 20. -/
def dbSnapshotPlusOp : Db :=
  { available := true, users := [], documents := [⟨1, 9, some ⟨true, {10}⟩, some 1⟩]
    permissions := [], operations := [⟨1, "c", 9, ⟨true, {20}⟩, 1, [], 2⟩]
    sessions := [], offline := [] }

def stSnapshotPlusOp : ServerState := ⟨dbSnapshotPlusOp, [], [], 0, 1000⟩

/-- **C3.** The claim states that on a registry miss `getOrCreate` loads
the snapshot and then applies every persisted operation row with
`version > snapshotVersion`, reconstructing the pre-shutdown CRDT state
byte-for-byte.  The source's `getOrCreateRoom` loads only the snapshot
and never calls `getOperationsSince` (which `websocket.ts` imports but
never uses): with a snapshot at version 1 containing operation 10 and a
persisted operation row at version 2 containing operation 20, the
reconstructed room holds `{10}` while the spec's read path
(`specReconstruct`) — and hence the pre-shutdown state — holds
`{10, 20}`. -/
theorem C3_getOrCreateRoom_skips_operation_replay :
    ((getOrCreateRoom stSnapshotPlusOp 1).1.map (fun r => r.doc)) = some {10}
    ∧ specReconstruct dbSnapshotPlusOp 1 = some {10, 20}
    ∧ ((getOrCreateRoom stSnapshotPlusOp 1).1.map (fun r => r.doc))
        ≠ specReconstruct dbSnapshotPlusOp 1 := by
  decide

/-! ## Claim C4 -/

/-- **C4.** The claim states that every checkpoint writes the room's full
encoded CRDT state to the document's `snapshotState` field in the store
(besides bumping the version and clearing the buffer).  The source's
`persistSnapshot` encodes the state and then only logs — its own comment
reads `Note: This would need a proper update function in db.ts` — so the
database is returned *unchanged* on every checkpoint, for every store and
room; only the in-memory buffer clear and version bump happen. -/
theorem C4_persistSnapshot_never_writes_the_store (db : Db) (room : DocumentRoom)
    (now : ℕ) :
    (persistSnapshot db room now).1 = db
    ∧ (persistSnapshot db room now).2.operationBuffer = []
    ∧ (persistSnapshot db room now).2.lastSnapshot.version
        = room.lastSnapshot.version + 1 := by
  exact ⟨rfl, rfl, rfl⟩

/-! ## Claim C6 -/

/-- **C6.** The claim states that a room is registered iff a joined,
not-yet-disconnected session exists — in particular that a `join_room`
failing with `AccessDenied` leaves no member-less room registered.  The
source calls `getOrCreateRoom` (which registers the room) *before* the
access check: user 5, who owns no grant for document 1, is refused with
`ACCESS_DENIED`, yet afterwards the registry holds a room for document 1
with an empty member map. -/
theorem C6_denied_join_leaks_memberless_room :
    (joinRoom stNoGrant none ⟨1, "c1", tokenAlice⟩).events
      = [.errorEvt .toSender "Access denied" "ACCESS_DENIED"]
    ∧ (joinRoom stNoGrant none ⟨1, "c1", tokenAlice⟩).state.rooms.map
        (fun p => (p.1, p.2.users)) = [(1, [])] := by
  decide

/-! ## Claim C5 -/

def sessC5 : UserSession := ⟨5, "c1", 1, "#FF6B6B", 0⟩

/-- A freshly created room for document 1 (snapshot version 0, empty
buffer) with the one member `"c1"`. -/
def freshRoom : DocumentRoom := ⟨∅, [("c1", sessC5)], 0, [], [], ⟨0, 0⟩⟩

def dbEmptyAvail : Db := ⟨true, [], [], [], [], [], []⟩

def stFreshRoom : ServerState := ⟨dbEmptyAvail, [(1, freshRoom)], [(1, ["c1"])], 1, 0⟩

/-- A well-formed update carrying no operations (enough to exercise the
version bookkeeping). -/
def validUpd : YUpdate := ⟨true, ∅⟩

/-- Run `n` consecutive `update` messages from session `cs` through the
handler. -/
def runUpdates (cs : UserSession) : ℕ → ServerState → ServerState
  | 0, st => st
  | n + 1, st => runUpdates cs n (updateHandler st (some cs) ⟨validUpd, cs.clientId⟩).state

set_option maxRecDepth 4000

/-- **C5.** The claim states that each accepted update is persisted with
`version = snapshot.version + |pendingOps after the append|` and that the
persisted versions are strictly increasing, making `(document, version)`
unique.  The source computes the version *before* the buffer append
(`room.lastSnapshot.version + room.operationBuffer.length`), so the very
first accepted update is stored with version 0, not 1; and the checkpoint
fired after the 101st buffered op clears the buffer while bumping the
snapshot version by only 1, so after 102 consecutive accepted updates on
a fresh room the persisted version sequence is `0,1,…,100,1`: version 1
is stored twice for document 1 (by the 2nd and the 102nd update),
refuting both the formula and strict monotonicity/uniqueness. -/
theorem C5_persisted_versions_repeat :
    ((runUpdates sessC5 102 stFreshRoom).db.operations.map (fun r => r.version)).length
      = 102
    ∧ ((runUpdates sessC5 102 stFreshRoom).db.operations.map (fun r => r.version)).getD
        0 999 = 0
    ∧ ((runUpdates sessC5 102 stFreshRoom).db.operations.map (fun r => r.version)).getD
        1 999 = 1
    ∧ ((runUpdates sessC5 102 stFreshRoom).db.operations.map (fun r => r.version)).getD
        101 999 = 1
    ∧ ∀ r ∈ (runUpdates sessC5 102 stFreshRoom).db.operations, r.documentId = 1 := by
  decide

/-! ## Claim C7 -/

def dbUnavailable : Db := ⟨false, [], [], [], [], [], []⟩

def stNoDb : ServerState := ⟨dbUnavailable, [(1, freshRoom)], [(1, ["c1"])], 1, 0⟩

/-- **C7 counterexample.** The claim states that *any* rejected update —
including one whose persistence path fails — leaves the room state
(CRDT document, lamport clock, vectorClocks, pendingOps) untouched.  With
the database unavailable, a valid update is merged into the CRDT and the
clocks are bumped *before* `addOperation` throws; the thrown error is
answered with `UPDATE_FAILED`, yet the room's lamport clock is now 1, its
document holds the update, and its vector clock counts it — the state was
not left untouched. -/
theorem C7_counterexample_persistence_failure_mutates_room :
    (updateHandler stNoDb (some sessC5) ⟨⟨true, {7}⟩, "c1"⟩).events
      = [.errorEvt .toSender "Failed to process update" "UPDATE_FAILED"]
    ∧ ((mapGet (updateHandler stNoDb (some sessC5) ⟨⟨true, {7}⟩, "c1"⟩).state.rooms 1).map
        (fun r => (r.lamportTime, r.doc, r.vectorClocks)))
      = some (1, {7}, [("c1", 1)])
    ∧ freshRoom.lamportTime = 0 ∧ freshRoom.doc = ∅ := by
  decide

/-- **C7 (amended).** When the update's bytes are rejected by the CRDT
(`applyYUpdate` fails), the server answers `UPDATE_FAILED` to the sender
only and the entire state — room included — is untouched.  When instead
the persistence path fails after a successful CRDT apply, the error still
goes to the sender only and no peer receives a broadcast, but only the
`pendingOps` buffer is guaranteed unchanged: the CRDT document, lamport
clock and vectorClocks retain the already-applied update. -/
theorem C7_amended_rejection_behavior (st : ServerState) (cs : UserSession)
    (room : DocumentRoom) (msg : UpdateMessage)
    (hroom : mapGet st.rooms cs.documentId = some room) :
    (applyYUpdate room.doc msg.update = none →
      updateHandler st (some cs) msg =
        ⟨st, [.errorEvt .toSender "Failed to process update" "UPDATE_FAILED"],
         some cs, false⟩)
    ∧ (st.db.available = false →
        (updateHandler st (some cs) msg).events
          = [.errorEvt .toSender "Failed to process update" "UPDATE_FAILED"]
        ∧ ((mapGet (updateHandler st (some cs) msg).state.rooms cs.documentId).map
            (fun r => r.operationBuffer)) = some room.operationBuffer) := by
  constructor
  · intro happly
    simp [updateHandler, hroom, happly]
  · intro hdb
    cases happly : applyYUpdate room.doc msg.update with
    | none => simp [updateHandler, hroom, happly]
    | some doc1 =>
        simp [updateHandler, hroom, happly, addOperation, hdb, mapGet_mapSet]

/-- Witness for `C7_amended_rejection_behavior` at a concrete state: an
invalid update is refused with the whole state untouched, and with the
database down a valid update is refused with the buffer unchanged. -/
theorem C7_amended_witness :
    mapGet stNoDb.rooms sessC5.documentId = some freshRoom
    ∧ ((applyYUpdate freshRoom.doc (YUpdate.mk false ∅) = none →
          updateHandler stNoDb (some sessC5) ⟨⟨false, ∅⟩, "c1"⟩ =
            ⟨stNoDb, [.errorEvt .toSender "Failed to process update" "UPDATE_FAILED"],
             some sessC5, false⟩)
        ∧ (stNoDb.db.available = false →
            (updateHandler stNoDb (some sessC5) ⟨⟨false, ∅⟩, "c1"⟩).events
              = [.errorEvt .toSender "Failed to process update" "UPDATE_FAILED"]
            ∧ ((mapGet (updateHandler stNoDb (some sessC5)
                  ⟨⟨false, ∅⟩, "c1"⟩).state.rooms sessC5.documentId).map
                (fun r => r.operationBuffer)) = some freshRoom.operationBuffer)) :=
  ⟨by decide, C7_amended_rejection_behavior stNoDb sessC5 freshRoom ⟨⟨false, ∅⟩, "c1"⟩
    (by decide)⟩

/-! ## Claim C8 -/

def oldSessX : UserSession := ⟨5, "x", 1, "#4ECDC4", 0⟩

/-- A room for document 1 already holding a member with `clientId = "x"`. -/
def roomWithX : DocumentRoom := ⟨∅, [("x", oldSessX)], 3, [], [], ⟨0, 0⟩⟩

def stDupJoin : ServerState := ⟨dbOwnerAlice, [(1, roomWithX)], [(1, ["x"])], 1, 500⟩

/-- **C8 counterexample.** The claim states that a `join_room` carrying an
already-present `ClientId` makes peers receive a `user_left` for the old
session followed by a `user_joined`.  In the source, `room.users.set`
silently replaces the entry and only `user_joined` is emitted: joining
document 1 again as `"x"` produces no `user_left` at all. -/
theorem C8_counterexample_no_user_left_on_duplicate_join :
    (mapGet roomWithX.users "x").isSome = true
    ∧ (joinRoom stDupJoin none ⟨1, "x", tokenAlice⟩).events.filter
        ServerEvent.isUserLeftEvt = []
    ∧ (joinRoom stDupJoin none ⟨1, "x", tokenAlice⟩).events.filter
        ServerEvent.isUserJoinedEvt ≠ [] := by
  decide

/-- **C8 (amended).** When a `join_room` arrives carrying a `ClientId`
that already exists in the room's members, the old entry is replaced —
the `ClientId` still appears exactly once in `members`, now bound to the
fresh session — and peers are sent a single `user_joined` for the new
session; no `user_left` is emitted for the old one. -/
theorem C8_amended_duplicate_join_replaces_silently
    (st : ServerState) (msg : JoinRoomMessage) (payload : JwtPayload) (user : UserRow)
    (room : DocumentRoom) (doc : DocumentRow) (oldSession : UserSession)
    (htok : parseJWT msg.token = some payload)
    (huser : getUserByOpenId st.db payload.openId = some user)
    (hroom : mapGet st.rooms msg.documentId = some room)
    (hdoc : getDocument st.db msg.documentId = some doc)
    (howner : doc.ownerId = user.id)
    (hold : mapGet room.users msg.clientId = some oldSession)
    (hcount : keyCount room.users msg.clientId = 1)
    (hdb : st.db.available = true) :
    (joinRoom st none msg).events.filter ServerEvent.isUserLeftEvt = []
    ∧ (joinRoom st none msg).events.filter ServerEvent.isUserJoinedEvt
        = [.userJoined (.toChannelExceptSender msg.documentId) user.id msg.clientId
            user.name (getNextColor st.colorIndex)]
    ∧ ((mapGet (joinRoom st none msg).state.rooms msg.documentId).map
        (fun r => keyCount r.users msg.clientId)) = some 1
    ∧ ((mapGet (joinRoom st none msg).state.rooms msg.documentId).map
        (fun r => mapGet r.users msg.clientId))
        = some (some ⟨user.id, msg.clientId, msg.documentId,
            getNextColor st.colorIndex, st.now⟩) := by
  have hgocr : getOrCreateRoom st msg.documentId = (some room, st) := by
    simp [getOrCreateRoom, hroom]
  simp [joinRoom, htok, huser, hgocr, hdoc, howner, createSession, hdb,
    ServerEvent.isUserLeftEvt, ServerEvent.isUserJoinedEvt, ServerEvent.hasErrorCode,
    mapGet_mapSet, keyCount_mapSet, hcount]

/-- Witness for `C8_amended_duplicate_join_replaces_silently`, instantiated
at the duplicate-reconnect fixture. -/
theorem C8_amended_witness :
    (parseJWT tokenAlice = some ⟨"u5", 99999⟩
      ∧ getUserByOpenId stDupJoin.db "u5" = some alice
      ∧ mapGet stDupJoin.rooms 1 = some roomWithX
      ∧ getDocument stDupJoin.db 1 = some ⟨1, 5, none, none⟩
      ∧ mapGet roomWithX.users "x" = some oldSessX
      ∧ keyCount roomWithX.users "x" = 1
      ∧ stDupJoin.db.available = true)
    ∧ ((joinRoom stDupJoin none ⟨1, "x", tokenAlice⟩).events.filter
          ServerEvent.isUserLeftEvt = []
        ∧ (joinRoom stDupJoin none ⟨1, "x", tokenAlice⟩).events.filter
            ServerEvent.isUserJoinedEvt
          = [.userJoined (.toChannelExceptSender 1) alice.id "x"
              alice.name (getNextColor stDupJoin.colorIndex)]
        ∧ ((mapGet (joinRoom stDupJoin none ⟨1, "x", tokenAlice⟩).state.rooms 1).map
            (fun r => keyCount r.users "x")) = some 1
        ∧ ((mapGet (joinRoom stDupJoin none ⟨1, "x", tokenAlice⟩).state.rooms 1).map
            (fun r => mapGet r.users "x"))
          = some (some ⟨alice.id, "x", 1, getNextColor stDupJoin.colorIndex,
              stDupJoin.now⟩)) :=
  ⟨⟨by decide, by decide, by decide, by decide, by decide, by decide, by decide⟩,
   C8_amended_duplicate_join_replaces_silently stDupJoin ⟨1, "x", tokenAlice⟩
     ⟨"u5", 99999⟩ alice roomWithX ⟨1, 5, none, none⟩ oldSessX
     (by decide) (by decide) (by decide) (by decide) (by decide) (by decide)
     (by decide) (by decide)⟩

/-! ## Claim C9 -/

def sessA9 : UserSession := ⟨5, "a", 1, "#FF6B6B", 0⟩

def sessB9 : UserSession := ⟨6, "b", 1, "#4ECDC4", 0⟩

/-- A room for document 1 with two members `"a"` and `"b"`, both joined
to the `doc:1` channel. -/
def roomAB : DocumentRoom := ⟨∅, [("a", sessA9), ("b", sessB9)], 0, [], [], ⟨0, 0⟩⟩

def stAB : ServerState := ⟨dbEmptyAvail, [(1, roomAB)], [(1, ["a", "b"])], 2, 0⟩

/-- **C9 counterexample.** The claim states that the accepted-update
broadcast excludes the origin client.  The source broadcasts with
`io.to("doc:" ++ documentId).emit`, which reaches every socket in the
channel including the sender: after `"a"`'s update is accepted, the
emitted event targets the whole channel and `"a"` is among its
recipients. -/
theorem C9_counterexample_origin_receives_own_update :
    (updateHandler stAB (some sessA9) ⟨⟨true, {3}⟩, "a"⟩).events
      = [.updateEvt (.toChannel 1) ⟨true, {3}⟩ "a" 1 0]
    ∧ "a" ∈ recipients (channelMembers stAB 1) "a" (.toChannel 1) := by
  decide

/-- **C9 (amended).** For every accepted update, the server broadcasts
the `{update, originClientId, lamport, timestamp}` message to every
member of the room's channel *including* the origin client (the source
uses `io.to`, not `socket.to`); the origin does receive its own update
back whenever it is joined to the channel. -/
theorem C9_amended_broadcast_includes_origin (st : ServerState) (cs : UserSession)
    (room : DocumentRoom) (msg : UpdateMessage) (doc1 : YDoc)
    (hroom : mapGet st.rooms cs.documentId = some room)
    (happly : applyYUpdate room.doc msg.update = some doc1)
    (hdb : st.db.available = true) :
    (updateHandler st (some cs) msg).events
      = [.updateEvt (.toChannel cs.documentId) msg.update msg.clientId
          (room.lamportTime + 1) st.now]
    ∧ ∀ m ∈ channelMembers st cs.documentId,
        m ∈ recipients (channelMembers st cs.documentId) msg.clientId
          (.toChannel cs.documentId) := by
  refine ⟨?_, fun m hm => hm⟩
  simp only [updateHandler, hroom, happly]
  simp only [addOperation, hdb, if_true]
  simp [broadcastUpdate, mapGet_mapSet]
  split <;> simp

/-- Witness for `C9_amended_broadcast_includes_origin` at the two-member
fixture: the broadcast reaches the whole channel and `"a"` is among the
recipients of its own update. -/
theorem C9_amended_witness :
    (mapGet stAB.rooms sessA9.documentId = some roomAB
      ∧ applyYUpdate roomAB.doc (YUpdate.mk true {3}) = some {3}
      ∧ stAB.db.available = true)
    ∧ ((updateHandler stAB (some sessA9) ⟨⟨true, {3}⟩, "a"⟩).events
        = [.updateEvt (.toChannel sessA9.documentId) ⟨true, {3}⟩ "a"
            (roomAB.lamportTime + 1) stAB.now]
      ∧ ∀ m ∈ channelMembers stAB sessA9.documentId,
          m ∈ recipients (channelMembers stAB sessA9.documentId) "a"
            (.toChannel sessA9.documentId)) :=
  ⟨⟨by decide, by decide, by decide⟩,
   C9_amended_broadcast_includes_origin stAB sessA9 roomAB ⟨⟨true, {3}⟩, "a"⟩ {3}
     (by decide) (by decide) (by decide)⟩

/-! ## Claim C10 -/

/-- **C10.** Whenever `recoverOfflineOperations(clientId, documentId, doc)`
completes against an available store, every offline-queue entry for the
pair `(clientId, documentId)` is gone afterwards — the clear is
unconditional, so entries counted as conflicts (failed to parse or
apply) are deleted too, lost rather than retained for retry — and the
returned counts satisfy `recovered + conflicts = number of queue entries
fetched`. -/
theorem C10_recovery_clears_queue_and_counts (db : Db) (clientId : String)
    (documentId : ℕ) (ydoc : YDoc) (hdb : db.available = true) :
    (recoverOfflineOperations db clientId documentId ydoc).db.offline.filter
      (fun r => r.clientId == clientId && r.documentId == documentId) = []
    ∧ (recoverOfflineOperations db clientId documentId ydoc).recovered
        + (recoverOfflineOperations db clientId documentId ydoc).conflicts
      = (getOfflineQueue db clientId documentId).length := by
  rcases hqe : getOfflineQueue db clientId documentId with _ | ⟨r0, rest⟩
  · have hfil : db.offline.filter (fun r => r.documentId == documentId) = [] := by
      have hlen : (getOfflineQueue db clientId documentId).length = 0 := by
        rw [hqe]; rfl
      rw [getOfflineQueue, if_pos hdb, length_sortByKey] at hlen
      have h0 := List.eq_nil_of_length_eq_zero hlen
      simpa [jsAnd, OffCond.holds] using h0
    have hrec : recoverOfflineOperations db clientId documentId ydoc
        = ⟨db, ydoc, 0, 0⟩ := by
      rw [recoverOfflineOperations, hqe]
      rfl
    rw [hrec]
    refine ⟨?_, rfl⟩
    apply List.filter_eq_nil_iff.mpr
    intro r hr
    have hd : (r.documentId == documentId) = false := by
      by_contra h
      have hd' : (r.documentId == documentId) = true := by
        cases hx : (r.documentId == documentId) with
        | true => rfl
        | false => exact absurd hx h
      have hmem : r ∈ db.offline.filter (fun r => r.documentId == documentId) :=
        List.mem_filter.mpr ⟨hr, hd'⟩
      rw [hfil] at hmem
      exact absurd hmem (List.not_mem_nil r)
    simp [hd]
  · have hrec : recoverOfflineOperations db clientId documentId ydoc
        = ⟨clearOfflineQueue db clientId documentId,
           ((r0 :: rest).foldl applyQueued (ydoc, 0, 0)).1,
           ((r0 :: rest).foldl applyQueued (ydoc, 0, 0)).2.1,
           ((r0 :: rest).foldl applyQueued (ydoc, 0, 0)).2.2⟩ := by
      rw [recoverOfflineOperations, hqe]
      rfl
    rw [hrec]
    constructor
    · have hclear : (clearOfflineQueue db clientId documentId).offline
          = db.offline.filter (fun r => !(r.documentId == documentId)) := by
        simp [clearOfflineQueue, hdb, jsAnd, OffCond.holds]
      simp only [hclear]
      apply List.filter_eq_nil_iff.mpr
      intro r hr
      have hd : (r.documentId == documentId) = false := by
        have h2 := (List.mem_filter.mp hr).2
        simpa using h2
      simp [hd]
    · simpa using applyQueued_counts (r0 :: rest) (ydoc, 0, 0)

/-- A store whose offline queue holds, for client `"c1"` and document 1,
one applicable update and one that fails to parse (a conflict). -/
def dbOfflineFix : Db :=
  ⟨true, [], [], [], [], [],
   [⟨"c1", 1, ⟨true, {1}⟩, 1⟩, ⟨"c1", 1, ⟨false, ∅⟩, 2⟩]⟩

/-- Witness for `C10_recovery_clears_queue_and_counts`: with one good and
one conflicting entry queued, recovery deletes both and the counts sum to
the two fetched entries. -/
theorem C10_witness :
    dbOfflineFix.available = true
    ∧ ((recoverOfflineOperations dbOfflineFix "c1" 1 ∅).db.offline.filter
        (fun r => r.clientId == "c1" && r.documentId == 1) = []
      ∧ (recoverOfflineOperations dbOfflineFix "c1" 1 ∅).recovered
          + (recoverOfflineOperations dbOfflineFix "c1" 1 ∅).conflicts
        = (getOfflineQueue dbOfflineFix "c1" 1).length) :=
  ⟨rfl, C10_recovery_clears_queue_and_counts dbOfflineFix "c1" 1 ∅ rfl⟩

end MUCK
